import Mathlib

/-!
Verification of the interaction logic of the custom video-player widget
(src/video-player.tsx). The widget drives an external playback adapter
(expo-video player object). We embed the transport, seek and gesture
functions shallowly: times and widths are rationals, adapter mutations are
recorded as an explicit command list, and React effect re-runs are modelled
as traces of the observed dependency values.
-/

namespace VideoPlayer

/-- State of the external playback adapter as read by the widget:
currentTime and duration in seconds, the playing flag, the muted flag and
the playback rate. -/
structure Player where
  currentTime : ℚ
  duration : ℚ
  playing : Bool
  muted : Bool
  playbackRate : ℚ
  deriving DecidableEq

/-- A mutation issued against the adapter. `seekBy` is the relative-seek
request (which may fail on the real engine), `setCurrentTime` is a direct
assignment to the currentTime property. -/
inductive AdapterCmd where
  | seekBy (delta : ℚ)
  | setCurrentTime (t : ℚ)
  | play
  | pause
  | setPlaybackRate (r : ℚ)
  deriving DecidableEq

/-- Nominal effect of a command on the adapter state, per the adapter
contract in the spec (section 6): seekBy moves currentTime by delta,
setCurrentTime / setPlaybackRate assign the property, play/pause set the
playing flag. -/
def applyCmd (p : Player) : AdapterCmd → Player
  | AdapterCmd.seekBy d => { p with currentTime := p.currentTime + d }
  | AdapterCmd.setCurrentTime t => { p with currentTime := t }
  | AdapterCmd.play => { p with playing := true }
  | AdapterCmd.pause => { p with playing := false }
  | AdapterCmd.setPlaybackRate r => { p with playbackRate := r }

/-- Apply a command list left to right. -/
def applyCmds (p : Player) (cmds : List AdapterCmd) : Player :=
  cmds.foldl applyCmd p

/-- Outcome of one call to seekToPosition: the adapter commands issued (in
order, including a seekBy that was issued and then failed) and the value
passed to the view-state setter setCurrentTime, if any. -/
structure SeekOutcome where
  cmds : List AdapterCmd
  viewCurrentTime : Option ℚ
  deriving DecidableEq

/-- Embedding of seekToPosition (src/video-player.tsx lines 187-216).
Guard: no player or duration <= 0 returns with no effect. Otherwise the
input is clamped to [0,1], the target time is clamped*duration, delta is
target minus adapter currentTime; |delta| < 0.1 only updates the displayed
time; otherwise seekBy(delta) is attempted, and when it throws (the
seekByFails flag) the catch block assigns currentTime = target; in both of
those branches the displayed time is then set to target. -/
def seekToPosition (player : Option Player) (duration : ℚ) (seekByFails : Bool)
    (position : ℚ) : SeekOutcome :=
  match player with
  | none => ⟨[], none⟩
  | some p =>
    if duration ≤ 0 then ⟨[], none⟩
    else
      let clampedPosition := max 0 (min position 1)
      let targetTime := clampedPosition * duration
      let delta := targetTime - p.currentTime
      if |delta| < 1 / 10 then ⟨[], some targetTime⟩
      else if seekByFails then
        ⟨[AdapterCmd.seekBy delta, AdapterCmd.setCurrentTime targetTime], some targetTime⟩
      else
        ⟨[AdapterCmd.seekBy delta], some targetTime⟩

/-- Outcome of one 500ms reconciliation tick (updateProgress,
src/video-player.tsx lines 89-105): the view-state values written, whether
onVideoEnd fired on this tick, and the pair passed to onProgress if it
fired. -/
structure TickOutcome where
  viewCurrentTime : ℚ
  viewDuration : ℚ
  viewIsPlaying : Bool
  videoEndFired : Bool
  progressReport : Option (ℚ × ℚ)
  deriving DecidableEq

/-- Embedding of updateProgress, the body of the 500ms interval. It copies
adapter currentTime/duration/playing into view state, fires onVideoEnd
whenever currentTime >= duration and duration > 0 (a per-tick check, no
edge detection in the source), and reports (currentTime/duration,
currentTime) to onProgress whenever duration > 0. -/
def updateProgress (hasOnVideoEnd hasOnProgress : Bool) (p : Player) : TickOutcome :=
  { viewCurrentTime := p.currentTime
    viewDuration := p.duration
    viewIsPlaying := p.playing
    videoEndFired :=
      (decide (p.duration ≤ p.currentTime) && decide (0 < p.duration)) && hasOnVideoEnd
    progressReport :=
      if hasOnProgress && decide (0 < p.duration) then
        some (p.currentTime / p.duration, p.currentTime)
      else none }

/-- Number of onVideoEnd firings over a trace of adapter states observed on
consecutive reconciliation ticks. -/
def videoEndCount (hasOnVideoEnd : Bool) (trace : List Player) : ℕ :=
  (trace.filter fun p => (updateProgress hasOnVideoEnd false p).videoEndFired).length

/-- What the initial-position effect (src/video-player.tsx lines 66-75)
observes on one invocation: whether the player object exists, the duration
in view state and the loading flag. -/
structure ReadyObs where
  playerPresent : Bool
  duration : ℚ
  isLoading : Bool
  deriving DecidableEq

/-- The readiness condition of the initial-position effect: player present,
duration > 0 and not loading. -/
def isReady (o : ReadyObs) : Bool :=
  o.playerPresent && decide (0 < o.duration) && !o.isLoading

/-- The start offset the effect assigns: startPosition when positive, else 0. -/
def initVal (startPosition : ℚ) : ℚ :=
  if 0 < startPosition then startPosition else 0

/-- One invocation of the initial-position effect. State is the
hasSetInitialPosition ref paired with the list of adapter currentTime
assignments made so far. The guard is the conjunction in the source:
ref not yet set, player present, duration > 0, not loading. -/
def initStep (startPosition : ℚ) (s : Bool × List ℚ) (o : ReadyObs) : Bool × List ℚ :=
  if !s.1 && isReady o then (true, s.2 ++ [initVal startPosition]) else s

/-- Run the initial-position effect over the whole sequence of its
invocations during one mount, starting from an unset ref and no
assignments. -/
def initRun (startPosition : ℚ) (obs : List ReadyObs) : Bool × List ℚ :=
  obs.foldl (initStep startPosition) (false, [])

/-- Dependency values at which a React effect with one Bool dependency
re-runs: those list entries that differ from the previous value. -/
def depChanges : Bool → List Bool → List Bool
  | _, [] => []
  | prev, x :: xs => if x = prev then depChanges prev xs else x :: depChanges x xs

/-- The last dependency value of a render sequence (the initial value when
the sequence is empty). -/
def lastDep (prev : Bool) : List Bool → Bool
  | [] => prev
  | x :: xs => lastDep x xs

/-- The isLoading values at which the auto-play effect
(src/video-player.tsx lines 78-83) actually runs: once on mount with the
initial value, then once per change. -/
def effectInvocations (init : Bool) (renders : List Bool) : List Bool :=
  init :: depChanges init renders

/-- Number of player.play() calls the auto-play effect issues over a mount:
it calls play() on every invocation where autoPlay is set, the player
exists and isLoading is false. There is no one-shot guard in the source. -/
def autoPlayCount (autoPlay playerPresent : Bool) (init : Bool) (renders : List Bool) : ℕ :=
  ((effectInvocations init renders).filter fun l => autoPlay && playerPresent && !l).length

/-- Embedding of the touch-to-position computation shared by
handleProgressBarTouch and handleProgressBarTap (src/video-player.tsx
lines 219-248): bar width is (fullscreen ? live window width : the
module-load-time SCREEN_WIDTH) minus 32, the touch x is clamped to
[0, barWidth] and divided by barWidth. -/
def barTouchNormalized (isFullscreen : Bool) (currentWidth screenWidth touchX : ℚ) : ℚ :=
  let progressBarWidth := (if isFullscreen then currentWidth else screenWidth) - 32
  let clampedTouchX := max 0 (min touchX progressBarWidth)
  clampedTouchX / progressBarWidth

/-- Modelled from the claim wording of C8 (not from the source): the bar
width is the CURRENT viewport width minus the fixed padding in both
fullscreen and non-fullscreen mode. Used only to compare against the
source embedding. -/
def claimedBarNormalized (currentWidth touchX : ℚ) : ℚ :=
  let barWidth := currentWidth - 32
  max 0 (min touchX barWidth) / barWidth

/-- The normalized position handleProgressBarTouch passes to
seekToPosition, none when the guard (no player or duration <= 0) returns
early. -/
def handleProgressBarTouchPos (player : Option Player) (duration : ℚ) (isFullscreen : Bool)
    (currentWidth screenWidth touchX : ℚ) : Option ℚ :=
  match player with
  | none => none
  | some _ =>
    if duration ≤ 0 then none
    else some (barTouchNormalized isFullscreen currentWidth screenWidth touchX)

/-- Full embedding of handleProgressBarTouch: guard, then seek to the
computed normalized position. none means the handler returned with no
effect at all. -/
def handleProgressBarTouch (player : Option Player) (duration : ℚ) (isFullscreen : Bool)
    (currentWidth screenWidth touchX : ℚ) (seekByFails : Bool) : Option SeekOutcome :=
  match player with
  | none => none
  | some p =>
    if duration ≤ 0 then none
    else some (seekToPosition (some p) duration seekByFails
      (barTouchNormalized isFullscreen currentWidth screenWidth touchX))

/-- Full embedding of handleProgressBarTap: same guard and seek, followed
by resetControlsTimeout (the Bool in the result records that the controls
timeout was reset). none means the handler returned before doing
anything. -/
def handleProgressBarTap (player : Option Player) (duration : ℚ) (isFullscreen : Bool)
    (currentWidth screenWidth touchX : ℚ) (seekByFails : Bool) :
    Option (SeekOutcome × Bool) :=
  match player with
  | none => none
  | some p =>
    if duration ≤ 0 then none
    else some (seekToPosition (some p) duration seekByFails
      (barTouchNormalized isFullscreen currentWidth screenWidth touchX), true)

/-- The playback-rate choices offered by the settings menu
(src/video-player.tsx line 427). -/
def playbackRates : List ℚ := [1 / 2, 3 / 4, 1, 5 / 4, 3 / 2, 2]

/-- Outcome of changePlaybackRate (src/video-player.tsx lines 180-185):
adapter commands issued, the value written to the playbackRate view state
and the value written to showSettings (none means untouched, which happens
only under the no-player guard). -/
structure RateOutcome where
  cmds : List AdapterCmd
  viewPlaybackRate : Option ℚ
  viewShowSettings : Option Bool
  deriving DecidableEq

/-- Embedding of changePlaybackRate: guard on player presence, then set
adapter playbackRate, mirror it into view state and close the settings
menu. -/
def changePlaybackRate (player : Option Player) (rate : ℚ) : RateOutcome :=
  match player with
  | none => ⟨[], none, none⟩
  | some _ => ⟨[AdapterCmd.setPlaybackRate rate], some rate, some false⟩

/-- Helper: with a player present and a positive duration, seekToPosition
reduces to the three-way branch on delta and the failure flag. -/
theorem seekToPosition_pos (p : Player) (duration : ℚ) (seekByFails : Bool) (position : ℚ)
    (hd : 0 < duration) :
    seekToPosition (some p) duration seekByFails position =
      if |max 0 (min position 1) * duration - p.currentTime| < 1 / 10 then
        ⟨[], some (max 0 (min position 1) * duration)⟩
      else if seekByFails then
        ⟨[AdapterCmd.seekBy (max 0 (min position 1) * duration - p.currentTime),
          AdapterCmd.setCurrentTime (max 0 (min position 1) * duration)],
         some (max 0 (min position 1) * duration)⟩
      else
        ⟨[AdapterCmd.seekBy (max 0 (min position 1) * duration - p.currentTime)],
         some (max 0 (min position 1) * duration)⟩ := by
  simp only [seekToPosition, if_neg (not_le.mpr hd)]

/-- Claim C2: with duration > 0, when the computed delta from the clamped
target to the adapter currentTime has absolute value below 0.1 seconds, no
adapter command at all is issued (neither seekBy nor a currentTime
assignment), yet the displayed time is set to the target time. -/
theorem seek_dead_zone_noop (p : Player) (duration position : ℚ) (seekByFails : Bool)
    (hd : 0 < duration)
    (hsmall : |max 0 (min position 1) * duration - p.currentTime| < 1 / 10) :
    (seekToPosition (some p) duration seekByFails position).cmds = [] ∧
      (seekToPosition (some p) duration seekByFails position).viewCurrentTime =
        some (max 0 (min position 1) * duration) := by
  rw [seekToPosition_pos p duration seekByFails position hd, if_pos hsmall]
  exact ⟨rfl, rfl⟩

/-- Witness for C2: duration 10, request position 1/2, adapter currentTime
exactly at the target, so delta is 0 and the dead zone applies. -/
theorem seek_dead_zone_noop_witness :
    (0 < (10 : ℚ) ∧ |max 0 (min (1 / 2 : ℚ) 1) * 10 - (5 : ℚ)| < 1 / 10) ∧
      (seekToPosition (some ⟨5, 10, false, false, 1⟩) 10 true (1 / 2)).cmds = [] ∧
        (seekToPosition (some ⟨5, 10, false, false, 1⟩) 10 true (1 / 2)).viewCurrentTime =
          some (max 0 (min (1 / 2 : ℚ) 1) * 10) :=
  ⟨⟨by norm_num, by norm_num⟩,
    seek_dead_zone_noop ⟨5, 10, false, false, 1⟩ 10 (1 / 2) true (by norm_num) (by norm_num)⟩

/-- Claim C3: with duration > 0, every seekToPosition call sets the
displayed time to a value whose ratio to the duration is exactly
clamp(position, 0, 1); in particular out-of-range inputs are clamped
before the target time is computed. Times are rationals here, so the
floating-rounding caveat of the claim is exact equality. -/
theorem seek_displayed_progress_clamped (p : Player) (duration position : ℚ)
    (seekByFails : Bool) (hd : 0 < duration) :
    ∃ t, (seekToPosition (some p) duration seekByFails position).viewCurrentTime = some t ∧
      t / duration = max 0 (min position 1) := by
  refine ⟨max 0 (min position 1) * duration, ?_, ?_⟩
  · rw [seekToPosition_pos p duration seekByFails position hd]
    split
    · rfl
    · split <;> rfl
  · exact mul_div_cancel_right₀ _ (ne_of_gt hd)

/-- Witness for C3: position 2 lies outside [0,1]; with duration 10 the
displayed time becomes 10 and displayed progress is clamp(2,0,1) = 1. -/
theorem seek_displayed_progress_clamped_witness :
    0 < (10 : ℚ) ∧
      ∃ t, (seekToPosition (some ⟨0, 10, false, false, 1⟩) 10 false 2).viewCurrentTime =
          some t ∧ t / 10 = max 0 (min (2 : ℚ) 1) :=
  ⟨by norm_num, seek_displayed_progress_clamped ⟨0, 10, false, false, 1⟩ 10 2 false (by norm_num)⟩

/-- Claim C4: with duration > 0 and a delta of magnitude at least 0.1, when
seekBy fails the function falls back to assigning the target to the
adapter currentTime and still returns normally (it is a total function of
the failure flag, so the failure never reaches the caller); in both the
failing and the succeeding case the displayed time is set to the target. -/
theorem seekBy_failure_fallback (p : Player) (duration position : ℚ) (hd : 0 < duration)
    (hbig : ¬|max 0 (min position 1) * duration - p.currentTime| < 1 / 10) :
    (seekToPosition (some p) duration true position).cmds =
        [AdapterCmd.seekBy (max 0 (min position 1) * duration - p.currentTime),
         AdapterCmd.setCurrentTime (max 0 (min position 1) * duration)] ∧
      (seekToPosition (some p) duration true position).viewCurrentTime =
        some (max 0 (min position 1) * duration) ∧
      (seekToPosition (some p) duration false position).cmds =
        [AdapterCmd.seekBy (max 0 (min position 1) * duration - p.currentTime)] ∧
      (seekToPosition (some p) duration false position).viewCurrentTime =
        some (max 0 (min position 1) * duration) := by
  rw [seekToPosition_pos p duration true position hd,
    seekToPosition_pos p duration false position hd, if_neg hbig, if_neg hbig]
  exact ⟨rfl, rfl, rfl, rfl⟩

/-- Witness for C4: duration 10, adapter at 0, request position 1, so the
delta is 10 and both the fallback and the success branch are exercised. -/
theorem seekBy_failure_fallback_witness :
    (0 < (10 : ℚ) ∧ ¬|max 0 (min (1 : ℚ) 1) * 10 - (0 : ℚ)| < 1 / 10) ∧
      (seekToPosition (some ⟨0, 10, false, false, 1⟩) 10 true 1).cmds =
          [AdapterCmd.seekBy (max 0 (min (1 : ℚ) 1) * 10 - 0),
           AdapterCmd.setCurrentTime (max 0 (min (1 : ℚ) 1) * 10)] ∧
        (seekToPosition (some ⟨0, 10, false, false, 1⟩) 10 true 1).viewCurrentTime =
          some (max 0 (min (1 : ℚ) 1) * 10) ∧
        (seekToPosition (some ⟨0, 10, false, false, 1⟩) 10 false 1).cmds =
          [AdapterCmd.seekBy (max 0 (min (1 : ℚ) 1) * 10 - 0)] ∧
        (seekToPosition (some ⟨0, 10, false, false, 1⟩) 10 false 1).viewCurrentTime =
          some (max 0 (min (1 : ℚ) 1) * 10) :=
  ⟨⟨by norm_num, by norm_num⟩,
    seekBy_failure_fallback ⟨0, 10, false, false, 1⟩ 10 1 (by norm_num) (by norm_num)⟩

/-- Claim C10: when the player is absent or the duration is not yet
positive, seekToPosition issues no adapter command and touches no view
state, and both progress-bar handlers (drag/touch and direct tap) return
before doing anything, so every seek gesture before the duration is known
is a complete no-op. -/
theorem seek_guard_noop (player : Option Player) (duration : ℚ) (isFullscreen : Bool)
    (currentWidth screenWidth touchX position : ℚ) (seekByFails : Bool)
    (h : player = none ∨ duration ≤ 0) :
    seekToPosition player duration seekByFails position = ⟨[], none⟩ ∧
      handleProgressBarTouch player duration isFullscreen currentWidth screenWidth touchX
          seekByFails = none ∧
      handleProgressBarTap player duration isFullscreen currentWidth screenWidth touchX
          seekByFails = none := by
  rcases h with h | h
  · subst h
    exact ⟨rfl, rfl, rfl⟩
  · cases player with
    | none => exact ⟨rfl, rfl, rfl⟩
    | some p =>
      refine ⟨?_, ?_, ?_⟩ <;>
        simp [seekToPosition, handleProgressBarTouch, handleProgressBarTap, h]

/-- Witness for C10: player present but duration still 0 (media metadata
not loaded): the seek and both handlers do nothing. -/
theorem seek_guard_noop_witness :
    (some (⟨0, 0, false, false, 1⟩ : Player) = none ∨ (0 : ℚ) ≤ 0) ∧
      seekToPosition (some ⟨0, 0, false, false, 1⟩) 0 false (1 / 2) = ⟨[], none⟩ ∧
        handleProgressBarTouch (some ⟨0, 0, false, false, 1⟩) 0 false 800 400 100 false =
          none ∧
        handleProgressBarTap (some ⟨0, 0, false, false, 1⟩) 0 false 800 400 100 false =
          none :=
  ⟨Or.inr le_rfl,
    seek_guard_noop (some ⟨0, 0, false, false, 1⟩) 0 false 800 400 100 (1 / 2) false
      (Or.inr le_rfl)⟩

/-- Claim C7: on any reconciliation tick where a progress callback is
registered and the adapter duration is positive, onProgress is called with
the pair (currentTime/duration, currentTime). The firing condition reads
only the current adapter state, never the previous tick, so it re-fires on
every such tick (level-triggered). -/
theorem progress_reported_every_tick (hasOnVideoEnd : Bool) (p : Player)
    (hd : 0 < p.duration) :
    (updateProgress hasOnVideoEnd true p).progressReport =
      some (p.currentTime / p.duration, p.currentTime) := by
  simp [updateProgress, hd]

/-- Witness for C7: adapter at 2s of a 10s medium reports (1/5, 2). -/
theorem progress_reported_every_tick_witness :
    0 < (Player.mk 2 10 true false 1).duration ∧
      (updateProgress false true ⟨2, 10, true, false, 1⟩).progressReport =
        some ((Player.mk 2 10 true false 1).currentTime / (Player.mk 2 10 true false 1).duration,
          (Player.mk 2 10 true false 1).currentTime) :=
  ⟨by norm_num, progress_reported_every_tick false ⟨2, 10, true, false, 1⟩ (by norm_num)⟩

/-- Claim C1, evaluated at the failing input: the source re-checks
currentTime >= duration on every 500ms tick with no edge detection, so an
adapter that sits at currentTime = duration = 10 for two consecutive ticks
fires onVideoEnd twice, not once per crossing as the claim and the spec
require. -/
theorem videoEnd_fires_every_tick :
    videoEndCount true [⟨10, 10, false, false, 1⟩, ⟨10, 10, false, false, 1⟩] = 2 ∧
      videoEndCount true [⟨10, 10, false, false, 1⟩, ⟨10, 10, false, false, 1⟩] ≠ 1 := by
  constructor <;> decide

/-- Claim C9: for every rate offered by the settings menu, selecting it
issues exactly the adapter playbackRate assignment (after which the
adapter playbackRate equals the chosen rate), mirrors the rate into view
state and closes the settings menu. -/
theorem change_rate_applies (rate : ℚ) (p : Player) (_hmem : rate ∈ playbackRates) :
    changePlaybackRate (some p) rate =
        ⟨[AdapterCmd.setPlaybackRate rate], some rate, some false⟩ ∧
      (applyCmds p (changePlaybackRate (some p) rate).cmds).playbackRate = rate := by
  exact ⟨rfl, rfl⟩

/-- Witness for C9: the scenario of the claim, rate 1.5: the adapter rate
becomes 3/2 and the menu closes. -/
theorem change_rate_applies_witness :
    (3 / 2 : ℚ) ∈ playbackRates ∧
      (changePlaybackRate (some ⟨0, 10, true, false, 1⟩) (3 / 2) =
          ⟨[AdapterCmd.setPlaybackRate (3 / 2)], some (3 / 2), some false⟩ ∧
        (applyCmds ⟨0, 10, true, false, 1⟩
            (changePlaybackRate (some ⟨0, 10, true, false, 1⟩) (3 / 2)).cmds).playbackRate =
          3 / 2) :=
  ⟨by norm_num [playbackRates], change_rate_applies (3 / 2) ⟨0, 10, true, false, 1⟩
    (by norm_num [playbackRates])⟩

/-- Helper: once the hasSetInitialPosition ref is set, later invocations of
the initial-position effect change nothing. -/
theorem foldl_initStep_set (sp : ℚ) (obs : List ReadyObs) (l : List ℚ) :
    obs.foldl (initStep sp) (true, l) = (true, l) := by
  induction obs with
  | nil => rfl
  | cons o os ih => simpa [initStep] using ih

/-- Helper: from an unset ref, the effect assigns exactly once as soon as a
ready observation appears, and never otherwise. -/
theorem foldl_initStep_unset (sp : ℚ) (obs : List ReadyObs) (l : List ℚ) :
    obs.foldl (initStep sp) (false, l) =
      if obs.any isReady then (true, l ++ [initVal sp]) else (false, l) := by
  induction obs generalizing l with
  | nil => rfl
  | cons o os ih =>
    by_cases h : isReady o
    · simp [List.foldl_cons, initStep, h, foldl_initStep_set]
    · simp [List.foldl_cons, initStep, h, ih]

/-- Claim C5: over the whole sequence of invocations of the
initial-position effect during one mount, the adapter currentTime is
assigned the start offset (startPosition when positive, else 0) exactly
once when some invocation sees the adapter ready (duration > 0, not
loading, player present) and never otherwise; in every case at most one
assignment is made, however many reconciliations occur. -/
theorem initial_position_applied_once (sp : ℚ) (obs : List ReadyObs) :
    (initRun sp obs).2 = (if obs.any isReady then [initVal sp] else []) ∧
      (initRun sp obs).2.length ≤ 1 := by
  rw [initRun, foldl_initStep_unset sp obs []]
  constructor
  · split <;> simp
  · split <;> simp

/-- Helper: the effect-invocation values of a concatenated render sequence
split at the concatenation, the second part starting from the last value
of the first. -/
theorem depChanges_append (ys xs : List Bool) : ∀ prev : Bool,
    depChanges prev (xs ++ ys) = depChanges prev xs ++ depChanges (lastDep prev xs) ys := by
  induction xs with
  | nil => intro prev; simp [depChanges, lastDep]
  | cons x xs ih =>
    intro prev
    by_cases h : x = prev
    · subst h
      simp [depChanges, lastDep, ih x]
    · simp [depChanges, lastDep, h, ih x]

/-- Counterexample to claim C6: with autoPlay set and the player mounted
loading, reaching ready, loading again and reaching ready again
(isLoading true, then renders false, true, false), the auto-play effect
calls play() twice, not exactly once: a later loading/ready transition
re-triggers it. -/
theorem autoplay_retrigger_counterexample :
    autoPlayCount true true true [false, true, false] = 2 ∧
      autoPlayCount true true true [false, true, false] ≠ 1 := by
  constructor <;> decide

/-- Claim C6 as amended: with autoPlay set and the player present, play()
is issued once when loading first completes, and, the effect having no
one-shot guard and re-running on every isLoading change, each later
loading-then-ready round trip appended to any render history issues
exactly one more play() call. -/
theorem autoplay_fires_per_loading_completion :
    autoPlayCount true true true [false] = 1 ∧
      ∀ (init : Bool) (renders : List Bool),
        autoPlayCount true true init (renders ++ [true, false]) =
          autoPlayCount true true init renders + 1 := by
  constructor
  · decide
  · intro init renders
    unfold autoPlayCount effectInvocations
    rw [depChanges_append, ← List.cons_append, List.filter_append, List.length_append]
    cases h : lastDep init renders <;> simp [depChanges]

/-- Counterexample to claim C8: in non-fullscreen mode with a live window
width of 800 but a module-load-time screen width of 400, a touch at x=500
is mapped to normalized position 1 (the code uses the stale 400-32=368 bar
width), while the claimed current-viewport-width bar would give 500/768. -/
theorem bar_width_counterexample :
    handleProgressBarTouchPos (some ⟨0, 100, false, false, 1⟩) 100 false 800 400 500 =
        some 1 ∧
      claimedBarNormalized 800 500 = 500 / 768 ∧ (1 : ℚ) ≠ 500 / 768 := by
  refine ⟨?_, ?_, by norm_num⟩
  · norm_num [handleProgressBarTouchPos, barTouchNormalized, min_def, max_def]
  · norm_num [claimedBarNormalized, min_def, max_def]

/-- Claim C8 as amended: with the player present and duration > 0, the
normalized position passed to the seek engine is
clamp(touchX, 0, barWidth) / barWidth where barWidth is the live viewport
width minus 32 in fullscreen mode but the module-load-time screen width
minus 32 otherwise; in non-fullscreen mode the result is independent of
the live viewport width. -/
theorem bar_touch_normalized_formula (p : Player) (duration : ℚ) (isFullscreen : Bool)
    (currentWidth screenWidth touchX : ℚ) (hd : 0 < duration) :
    handleProgressBarTouchPos (some p) duration isFullscreen currentWidth screenWidth
        touchX =
      some (max 0 (min touchX ((if isFullscreen then currentWidth else screenWidth) - 32)) /
        ((if isFullscreen then currentWidth else screenWidth) - 32)) ∧
      ∀ currentWidth2 : ℚ,
        handleProgressBarTouchPos (some p) duration false currentWidth screenWidth touchX =
          handleProgressBarTouchPos (some p) duration false currentWidth2 screenWidth
            touchX := by
  constructor
  · simp [handleProgressBarTouchPos, barTouchNormalized, not_le.mpr hd]
  · intro w
    simp [handleProgressBarTouchPos, barTouchNormalized]

/-- Witness for the amended C8: non-fullscreen, live width 800, screen
width 400, touch at 500 with duration 100. -/
theorem bar_touch_normalized_formula_witness :
    0 < (100 : ℚ) ∧
      (handleProgressBarTouchPos (some ⟨0, 100, false, false, 1⟩) 100 false 800 400 500 =
          some (max 0 (min (500 : ℚ) ((if false then (800 : ℚ) else 400) - 32)) /
            ((if false then (800 : ℚ) else 400) - 32)) ∧
        ∀ currentWidth2 : ℚ,
          handleProgressBarTouchPos (some ⟨0, 100, false, false, 1⟩) 100 false 800 400
              500 =
            handleProgressBarTouchPos (some ⟨0, 100, false, false, 1⟩) 100 false
              currentWidth2 400 500) :=
  ⟨by norm_num,
    bar_touch_normalized_formula ⟨0, 100, false, false, 1⟩ 100 false 800 400 500
      (by norm_num)⟩

end VideoPlayer
